import Mathlib

/-!
A shallow embedding of the repository's single script `init-s3.py`.
The script provisions a bucket on a local object-storage emulator:
it builds a session and a client, creates the bucket `java-http` with a
location constraint, enables versioning on it, and uploads the local file
`/build/tmp/agreements.zip` under the key `agreements.zip`.  The external
collaborators (the object-storage service and the local filesystem) are
modelled explicitly so the script's remote requests, its local file
events, the resulting store and the run's outcome are all observable.
-/

/-- The boto3 session built at lines 4-8 of the script: static access
key, static secret key, fixed region. -/
structure Session where
  aws_access_key_id : String
  aws_secret_access_key : String
  region_name : String
deriving DecidableEq

/-- The session object of the script, with its literal field values. -/
def session : Session := ⟨"test", "test", "ap-south-1"⟩

/-- The s3 client built at lines 10-14: derived from the session, bound
to the emulator endpoint and the region. -/
structure S3Client where
  sess : Session
  service : String
  endpoint_url : String
  region_name : String
deriving DecidableEq

/-- The client object of the script, with its literal field values. -/
def s3_client : S3Client := ⟨session, "s3", "http://localhost:4566", "ap-south-1"⟩

/-- The fixed path of the local archive (line 29 of the script). -/
def zip_file_path : String := "/build/tmp/agreements.zip"

/-- Modelled from the spec: the state of one bucket in the external
object-storage service — its location constraint, its versioning
configuration (`none` until configured), and its stored objects, each
key mapping to its list of stored versions, oldest first. -/
structure BucketState where
  loc : String
  versioning : Option String
  objects : List (String × List (List Nat))
deriving DecidableEq

/-- Modelled from the spec: the backing store of the external
object-storage service, a map from bucket names to bucket states. -/
structure Store where
  buckets : List (String × BucketState)
deriving DecidableEq

/-- A fresh (empty) backing store. -/
def freshStore : Store := ⟨[]⟩

/-- Does a bucket of this name exist in the store? -/
def Store.hasBucket (st : Store) (name : String) : Bool :=
  (st.buckets.lookup name).isSome

/-- Look up a bucket's state by name. -/
def Store.getBucket (st : Store) (name : String) : Option BucketState :=
  st.buckets.lookup name

/-- Add a new bucket: no versioning configured yet, no objects. -/
def Store.addBucket (st : Store) (name loc : String) : Store :=
  ⟨(name, ⟨loc, none, []⟩) :: st.buckets⟩

/-- Set the versioning configuration of the named bucket. -/
def Store.setVersioning (st : Store) (name status : String) : Store :=
  ⟨st.buckets.map (fun p =>
    if p.1 = name then (p.1, ⟨p.2.loc, some status, p.2.objects⟩) else p)⟩

/-- Modelled from the spec (glossary): storing an object under a key.
With versioning enabled the previous versions are retained and the new
content is appended as a fresh version; otherwise the new content
replaces whatever was stored. -/
def BucketState.putObject (b : BucketState) (key : String) (bytes : List Nat) :
    BucketState :=
  let prev := (b.objects.lookup key).getD []
  let versions := if b.versioning = some "Enabled" then prev ++ [bytes] else [bytes]
  ⟨b.loc, b.versioning, (key, versions) :: b.objects.filter (fun p => p.1 ≠ key)⟩

/-- Store an object in the named bucket. -/
def Store.putObject (st : Store) (name key : String) (bytes : List Nat) : Store :=
  ⟨st.buckets.map (fun p =>
    if p.1 = name then (p.1, p.2.putObject key bytes) else p)⟩

/-- The versioning status of the named bucket, if the bucket exists and
versioning has been configured. -/
def Store.versioningOf (st : Store) (name : String) : Option String :=
  (st.getBucket name).bind (fun b => b.versioning)

/-- The stored versions at a key of the named bucket (empty if the
bucket or the key is absent). -/
def Store.objectVersions (st : Store) (name key : String) : List (List Nat) :=
  match st.getBucket name with
  | none => []
  | some b => (b.objects.lookup key).getD []

/-- All objects of the named bucket (empty if the bucket is absent). -/
def Store.objectsOf (st : Store) (name : String) :
    List (String × List (List Nat)) :=
  match st.getBucket name with
  | none => []
  | some b => b.objects

/-- Errors raised by the external collaborators, per the spec's error
taxonomy. -/
inductive S3Err where
  | connectionError
  | bucketAlreadyExists
  | noSuchBucket
  | uploadRejected
deriving DecidableEq

/-- An error a run can die with: a service error or a missing local file. -/
inductive RunErr where
  | s3 (e : S3Err)
  | fileNotFound
deriving DecidableEq

/-- A remote request as issued by the script, tagged with the client
object that issues it. -/
inductive Request where
  | create_bucket (client : S3Client) (bucket : String) (loc : String)
  | put_bucket_versioning (client : S3Client) (bucket : String) (status : String)
  | upload_fileobj (client : S3Client) (bucket : String) (key : String)
      (bytes : List Nat)
deriving DecidableEq

/-- The client a request is issued through. -/
def Request.client : Request → S3Client
  | .create_bucket c _ _ => c
  | .put_bucket_versioning c _ _ => c
  | .upload_fileobj c _ _ _ => c

/-- The bucket a request targets. -/
def Request.bucket : Request → String
  | .create_bucket _ b _ => b
  | .put_bucket_versioning _ b _ => b
  | .upload_fileobj _ b _ _ => b

/-- Is this request an object upload? -/
def Request.isUpload : Request → Bool
  | .upload_fileobj _ _ _ _ => true
  | _ => false

/-- The external world of one run: the local filesystem (path to byte
content, `none` when the path does not exist) and a fault model letting
the service reject any request with a transport or service-side error. -/
structure Env where
  fs : String → Option (List Nat)
  reject : Request → Option S3Err

/-- Modelled from the spec: how the external object-storage service
answers one request.  A request that the fault model rejects fails with
the injected error; otherwise create-bucket fails on an existing name
with `bucketAlreadyExists`, and versioning and upload fail on a missing
bucket with `noSuchBucket`. -/
def applyRequest (env : Env) (st : Store) (r : Request) : Except S3Err Store :=
  match env.reject r with
  | some e => .error e
  | none =>
    match r with
    | .create_bucket _ b loc =>
        if st.hasBucket b then .error .bucketAlreadyExists
        else .ok (st.addBucket b loc)
    | .put_bucket_versioning _ b status =>
        if st.hasBucket b then .ok (st.setVersioning b status)
        else .error .noSuchBucket
    | .upload_fileobj _ b key bytes =>
        if st.hasBucket b then .ok (st.putObject b key bytes)
        else .error .noSuchBucket

/-- A local file event: opening a path in a mode, or closing it. -/
inductive FileEvent where
  | fopen (path : String) (mode : String)
  | fclose (path : String)
deriving DecidableEq

/-- Everything observable about one run of the script: the remote
requests issued in order, the local file events in order, the final
state of the backing store, and `none` on success or the error the
process died with. -/
structure RunResult where
  requests : List Request
  fileEvents : List FileEvent
  finalStore : Store
  outcome : Option RunErr
deriving DecidableEq

/-- The create-bucket request of lines 16-21: fixed name, literal
location constraint. -/
def req1 : Request := .create_bucket s3_client "java-http" "ap-south-1"

/-- The put-bucket-versioning request of lines 23-26: status Enabled. -/
def req2 : Request := .put_bucket_versioning s3_client "java-http" "Enabled"

/-- The upload request of line 33, carrying the bytes read from the
local file. -/
def req3 (bytes : List Nat) : Request :=
  .upload_fileobj s3_client "java-http" "agreements.zip" bytes

/-- The file events of the `with open` block of lines 32-33: the archive
is opened in binary mode and closed when the block exits. -/
def openCloseEvents : List FileEvent :=
  [.fopen zip_file_path "rb", .fclose zip_file_path]

/-- The script body (lines 16-33): create the bucket, enable versioning,
open the archive in binary mode and upload it, letting every failure
propagate and halt the run at the point of failure, with no rollback of
the store. -/
def runScript (env : Env) (st : Store) : RunResult :=
  match applyRequest env st req1 with
  | .error e => ⟨[req1], [], st, some (.s3 e)⟩
  | .ok st1 =>
    match applyRequest env st1 req2 with
    | .error e => ⟨[req1, req2], [], st1, some (.s3 e)⟩
    | .ok st2 =>
      match env.fs zip_file_path with
      | none => ⟨[req1, req2], [], st2, some .fileNotFound⟩
      | some bytes =>
        match applyRequest env st2 (req3 bytes) with
        | .error e =>
            ⟨[req1, req2, req3 bytes], openCloseEvents, st2, some (.s3 e)⟩
        | .ok st3 =>
            ⟨[req1, req2, req3 bytes], openCloseEvents, st3, none⟩

/-- The first failing step of a run, recomputed without tracking the
trace: the error the process dies with, if any. -/
def firstFailure (env : Env) (st : Store) : Option RunErr :=
  match applyRequest env st req1 with
  | .error e => some (.s3 e)
  | .ok st1 =>
    match applyRequest env st1 req2 with
    | .error e => some (.s3 e)
    | .ok st2 =>
      match env.fs zip_file_path with
      | none => some .fileNotFound
      | some bytes =>
        match applyRequest env st2 (req3 bytes) with
        | .error e => some (.s3 e)
        | .ok _ => none

/-- The process exit status of a run: zero on success, nonzero on an
unhandled error. -/
def exitCode (res : RunResult) : Nat :=
  match res.outcome with
  | none => 0
  | some _ => 1

/-- The complete request sequence of a run in which every step succeeds. -/
def fullTrace (env : Env) : List Request :=
  [req1, req2, req3 ((env.fs zip_file_path).getD [])]

/-- A well-behaved world: the archive exists with a sample zip
end-of-central-directory signature and the service rejects nothing. -/
def envGood : Env :=
  ⟨fun p => if p = zip_file_path then some [80, 75, 5, 6] else none,
   fun _ => none⟩

/-- A second, identically-behaving copy of the well-behaved world. -/
def envGoodCopy : Env :=
  ⟨fun p => if p = zip_file_path then some [80, 75, 5, 6] else none,
   fun _ => none⟩

/-- A world in which the archive path does not exist. -/
def envNoFile : Env := ⟨fun _ => none, fun _ => none⟩

/-- A world in which the service rejects the upload request. -/
def envUploadFail : Env :=
  ⟨fun p => if p = zip_file_path then some [80, 75, 5, 6] else none,
   fun r => if r.isUpload then some .uploadRejected else none⟩

/-- A backing store in which the bucket `java-http` already exists. -/
def storeWithBucket : Store := freshStore.addBucket "java-http" "ap-south-1"

/-- Exhaustive case analysis of one run of the script: it halts at the
first failing step with that step's error and the requests issued so
far, or completes all steps. -/
lemma runScript_cases (env : Env) (st : Store) :
    (∃ e, applyRequest env st req1 = .error e ∧
       runScript env st = ⟨[req1], [], st, some (.s3 e)⟩) ∨
    (∃ st1, applyRequest env st req1 = .ok st1 ∧
      ((∃ e, applyRequest env st1 req2 = .error e ∧
         runScript env st = ⟨[req1, req2], [], st1, some (.s3 e)⟩) ∨
       (∃ st2, applyRequest env st1 req2 = .ok st2 ∧
         ((env.fs zip_file_path = none ∧
            runScript env st = ⟨[req1, req2], [], st2, some .fileNotFound⟩) ∨
          (∃ bytes, env.fs zip_file_path = some bytes ∧
            ((∃ e, applyRequest env st2 (req3 bytes) = .error e ∧
               runScript env st =
                 ⟨[req1, req2, req3 bytes], openCloseEvents, st2, some (.s3 e)⟩) ∨
             (∃ st3, applyRequest env st2 (req3 bytes) = .ok st3 ∧
               runScript env st =
                 ⟨[req1, req2, req3 bytes], openCloseEvents, st3, none⟩))))))) := by
  cases h1 : applyRequest env st req1 with
  | error e => exact Or.inl ⟨e, rfl, by simp [runScript, h1]⟩
  | ok st1 =>
    refine Or.inr ⟨st1, rfl, ?_⟩
    cases h2 : applyRequest env st1 req2 with
    | error e => exact Or.inl ⟨e, rfl, by simp [runScript, h1, h2]⟩
    | ok st2 =>
      refine Or.inr ⟨st2, rfl, ?_⟩
      cases hfs : env.fs zip_file_path with
      | none => exact Or.inl ⟨rfl, by simp [runScript, h1, h2, hfs]⟩
      | some bytes =>
        refine Or.inr ⟨bytes, rfl, ?_⟩
        cases h3 : applyRequest env st2 (req3 bytes) with
        | error e => exact Or.inl ⟨e, rfl, by simp [runScript, h1, h2, hfs, h3]⟩
        | ok st3 => exact Or.inr ⟨st3, rfl, by simp [runScript, h1, h2, hfs, h3]⟩

/-- C1: for every fresh (empty) backing store, one complete run of the
provisioner (the archive exists, the service rejects nothing) leaves the
store with the bucket `java-http` existing, its versioning status
Enabled, and exactly one object stored at the key `agreements.zip` whose
bytes are the bytes of the local file `/build/tmp/agreements.zip`. -/
theorem fresh_run_provisions (env : Env) (bytes : List Nat)
    (hrej : ∀ r, env.reject r = none)
    (hfs : env.fs zip_file_path = some bytes) :
    (runScript env freshStore).outcome = none ∧
    (runScript env freshStore).finalStore.hasBucket "java-http" = true ∧
    (runScript env freshStore).finalStore.versioningOf "java-http" =
      some "Enabled" ∧
    (runScript env freshStore).finalStore.objectsOf "java-http" =
      [("agreements.zip", [bytes])] := by
  simp [runScript, applyRequest, hrej, hfs, freshStore, Store.hasBucket,
    Store.addBucket, Store.setVersioning, Store.putObject,
    BucketState.putObject, Store.getBucket, Store.versioningOf,
    Store.objectsOf, req1, req2, req3, List.lookup]

/-- C1 witness: the theorem instantiated at the well-behaved world. -/
theorem fresh_run_provisions_witness :
    (runScript envGood freshStore).outcome = none ∧
    (runScript envGood freshStore).finalStore.hasBucket "java-http" = true ∧
    (runScript envGood freshStore).finalStore.versioningOf "java-http" =
      some "Enabled" ∧
    (runScript envGood freshStore).finalStore.objectsOf "java-http" =
      [("agreements.zip", [[80, 75, 5, 6]])] :=
  fresh_run_provisions envGood [80, 75, 5, 6] (fun _ => rfl) rfl

/-- C4: against any backing store in which the bucket `java-http`
already exists, and with the service reachable, the run fails at the
create-bucket step with `bucketAlreadyExists`, the error propagates (the
outcome is that error, not caught or retried: the request is issued
once), and neither the versioning step nor the upload step is attempted
(the trace is exactly the one create-bucket request); the store is left
untouched. -/
theorem existing_bucket_fails_at_create (env : Env) (st : Store)
    (hb : st.hasBucket "java-http" = true)
    (hrej : env.reject req1 = none) :
    (runScript env st).outcome = some (.s3 .bucketAlreadyExists) ∧
    (runScript env st).requests = [req1] ∧
    (runScript env st).finalStore = st := by
  have hr : env.reject (Request.create_bucket s3_client "java-http" "ap-south-1") =
      none := hrej
  simp only [Store.hasBucket] at hb
  simp [runScript, applyRequest, hr, hb, Store.hasBucket, req1]

/-- C4 witness: the theorem instantiated at the well-behaved world and a
store already holding the bucket. -/
theorem existing_bucket_fails_at_create_witness :
    (runScript envGood storeWithBucket).outcome =
      some (.s3 .bucketAlreadyExists) ∧
    (runScript envGood storeWithBucket).requests = [req1] ∧
    (runScript envGood storeWithBucket).finalStore = storeWithBucket :=
  existing_bucket_fails_at_create envGood storeWithBucket (by decide) rfl

/-- C5: in any run against a store without the bucket, with the service
reachable, in which the local archive path does not exist, the run fails
at the upload step only: create-bucket and put-bucket-versioning were
both issued and completed, their effects remain in the store (the bucket
exists with versioning Enabled — no rollback), and no object is stored. -/
theorem missing_file_fails_at_upload (env : Env) (st : Store)
    (hb : st.hasBucket "java-http" = false)
    (hrej : ∀ r, env.reject r = none)
    (hfs : env.fs zip_file_path = none) :
    (runScript env st).outcome = some .fileNotFound ∧
    (runScript env st).requests = [req1, req2] ∧
    (runScript env st).finalStore.hasBucket "java-http" = true ∧
    (runScript env st).finalStore.versioningOf "java-http" = some "Enabled" ∧
    (runScript env st).finalStore.objectsOf "java-http" = [] := by
  simp only [Store.hasBucket] at hb
  simp [runScript, applyRequest, hrej, hfs, hb, Store.hasBucket,
    Store.addBucket, Store.setVersioning, Store.getBucket,
    Store.versioningOf, Store.objectsOf, req1, req2, List.lookup]

/-- C5 witness: the theorem instantiated at a fresh store and the world
without the archive file. -/
theorem missing_file_fails_at_upload_witness :
    (runScript envNoFile freshStore).outcome = some .fileNotFound ∧
    (runScript envNoFile freshStore).requests = [req1, req2] ∧
    (runScript envNoFile freshStore).finalStore.hasBucket "java-http" = true ∧
    (runScript envNoFile freshStore).finalStore.versioningOf "java-http" =
      some "Enabled" ∧
    (runScript envNoFile freshStore).finalStore.objectsOf "java-http" = [] :=
  missing_file_fails_at_upload envNoFile freshStore rfl (fun _ => rfl) rfl

/-- C2 counterexample: not every run issues exactly three remote
operations.  Against a store already holding the bucket, the run issues
only one (the create-bucket request that fails). -/
theorem second_run_issues_one_request :
    (runScript envGood storeWithBucket).requests.length ≠ 3 ∧
    (runScript envGood storeWithBucket).requests.length = 1 := by decide

/-- C2 (amended): every run issues, in order, an initial segment of the
three fixed operations — create-bucket with the fixed name and a
location constraint equal to the session region, put-bucket-versioning
with status Enabled on that bucket, and the upload of the source file's
bytes under the fixed key; a run in which every step succeeds issues
exactly those three; no other remote operation is ever issued. -/
theorem runScript_issues_ordered_requests (env : Env) (st : Store) :
    req1 = .create_bucket s3_client "java-http" session.region_name ∧
    req2 = .put_bucket_versioning s3_client "java-http" "Enabled" ∧
    (∀ bytes, req3 bytes =
      .upload_fileobj s3_client "java-http" "agreements.zip" bytes) ∧
    (∃ n, n ≤ 3 ∧ (runScript env st).requests = (fullTrace env).take n) ∧
    ((runScript env st).outcome = none →
      (runScript env st).requests = fullTrace env) := by
  refine ⟨rfl, rfl, fun _ => rfl, ?_⟩
  rcases runScript_cases env st with ⟨e, h1, hrun⟩ |
    ⟨st1, h1, ⟨e, h2, hrun⟩ | ⟨st2, h2, ⟨hfs, hrun⟩ |
      ⟨bytes, hfs, ⟨e, h3, hrun⟩ | ⟨st3, h3, hrun⟩⟩⟩⟩
  · exact ⟨⟨1, by norm_num, by simp [hrun, fullTrace]⟩, by simp [hrun]⟩
  · exact ⟨⟨2, by norm_num, by simp [hrun, fullTrace]⟩, by simp [hrun]⟩
  · exact ⟨⟨2, by norm_num, by simp [hrun, fullTrace]⟩, by simp [hrun]⟩
  · exact ⟨⟨3, by norm_num, by simp [hrun, fullTrace, hfs]⟩, by simp [hrun]⟩
  · exact ⟨⟨3, by norm_num, by simp [hrun, fullTrace, hfs]⟩,
      by simp [hrun, fullTrace, hfs]⟩

/-- C2 witness: in the well-behaved world against a fresh store, the run
succeeds and its request trace is exactly the three fixed operations. -/
theorem runScript_issues_ordered_requests_witness :
    (runScript envGood freshStore).requests = fullTrace envGood :=
  (runScript_issues_ordered_requests envGood freshStore).2.2.2.2 (by decide)

/-- C3: in every run, if an upload request is ever issued, then the
create-bucket operation and the put-bucket-versioning operation have
both already completed successfully, and the upload is the third
request, after both of them. -/
theorem upload_only_after_create_and_versioning (env : Env) (st : Store)
    (h : ∃ r ∈ (runScript env st).requests, r.isUpload = true) :
    ∃ st1 st2 bytes,
      applyRequest env st req1 = .ok st1 ∧
      applyRequest env st1 req2 = .ok st2 ∧
      env.fs zip_file_path = some bytes ∧
      (runScript env st).requests = [req1, req2, req3 bytes] := by
  rcases runScript_cases env st with ⟨e, h1, hrun⟩ |
    ⟨st1, h1, ⟨e, h2, hrun⟩ | ⟨st2, h2, ⟨hfs, hrun⟩ |
      ⟨bytes, hfs, ⟨e, h3, hrun⟩ | ⟨st3, h3, hrun⟩⟩⟩⟩
  · simp [hrun, req1, Request.isUpload] at h
  · simp [hrun, req1, req2, Request.isUpload] at h
  · simp [hrun, req1, req2, Request.isUpload] at h
  · exact ⟨st1, st2, bytes, h1, h2, hfs, by simp [hrun]⟩
  · exact ⟨st1, st2, bytes, h1, h2, hfs, by simp [hrun]⟩

/-- C3 witness: the theorem instantiated at the well-behaved world
against a fresh store, where the upload request is issued. -/
theorem upload_only_after_create_and_versioning_witness :
    ∃ st1 st2 bytes,
      applyRequest envGood freshStore req1 = .ok st1 ∧
      applyRequest envGood st1 req2 = .ok st2 ∧
      envGood.fs zip_file_path = some bytes ∧
      (runScript envGood freshStore).requests = [req1, req2, req3 bytes] :=
  upload_only_after_create_and_versioning envGood freshStore (by decide)

/-- C6: no error of any step is caught anywhere: the run's outcome is
exactly the error of the first failing step (whatever it is — injected
transport error, bucketAlreadyExists, noSuchBucket, a missing file, or a
rejected upload), and the process exit code is zero exactly when no step
fails. -/
theorem errors_propagate_uncaught (env : Env) (st : Store) :
    (runScript env st).outcome = firstFailure env st ∧
    (exitCode (runScript env st) = 0 ↔ firstFailure env st = none) := by
  rcases runScript_cases env st with ⟨e, h1, hrun⟩ |
    ⟨st1, h1, ⟨e, h2, hrun⟩ | ⟨st2, h2, ⟨hfs, hrun⟩ |
      ⟨bytes, hfs, ⟨e, h3, hrun⟩ | ⟨st3, h3, hrun⟩⟩⟩⟩
  · simp [hrun, firstFailure, exitCode, h1]
  · simp [hrun, firstFailure, exitCode, h1, h2]
  · simp [hrun, firstFailure, exitCode, h1, h2, hfs]
  · simp [hrun, firstFailure, exitCode, h1, h2, hfs, h3]
  · simp [hrun, firstFailure, exitCode, h1, h2, hfs, h3]

/-- C6 witness: the theorem instantiated at a run that dies at the
create-bucket step. -/
theorem errors_propagate_uncaught_witness :
    (runScript envGood storeWithBucket).outcome =
      firstFailure envGood storeWithBucket :=
  (errors_propagate_uncaught envGood storeWithBucket).1

/-- C7: in every run that attempts the upload, the local archive was
opened at the fixed path in binary mode and closed again, whether the
upload succeeds or raises an error — the file events are exactly one
open in mode rb followed by one close. -/
theorem file_handle_scoped (env : Env) (st : Store)
    (h : ∃ r ∈ (runScript env st).requests, r.isUpload = true) :
    (runScript env st).fileEvents =
      [FileEvent.fopen zip_file_path "rb", FileEvent.fclose zip_file_path] := by
  rcases runScript_cases env st with ⟨e, h1, hrun⟩ |
    ⟨st1, h1, ⟨e, h2, hrun⟩ | ⟨st2, h2, ⟨hfs, hrun⟩ |
      ⟨bytes, hfs, ⟨e, h3, hrun⟩ | ⟨st3, h3, hrun⟩⟩⟩⟩
  · simp [hrun, req1, Request.isUpload] at h
  · simp [hrun, req1, req2, Request.isUpload] at h
  · simp [hrun, req1, req2, Request.isUpload] at h
  · simp [hrun, openCloseEvents]
  · simp [hrun, openCloseEvents]

/-- C7 witness: the theorem instantiated at a world whose service
rejects the upload — the handle is opened and released even though the
upload step fails. -/
theorem file_handle_scoped_witness :
    (runScript envUploadFail freshStore).fileEvents =
      [FileEvent.fopen zip_file_path "rb", FileEvent.fclose zip_file_path] ∧
    (runScript envUploadFail freshStore).outcome =
      some (.s3 .uploadRejected) :=
  ⟨file_handle_scoped envUploadFail freshStore (by decide), by decide⟩

/-- C8: with versioning enabled on the bucket, a second upload to the
same key (in a reset scenario that reuses the bucket) yields two
distinct stored versions: the first upload's content survives as the
first version and the second is appended after it. -/
theorem versioned_uploads_accumulate (env : Env) (v1 v2 : List Nat)
    (hrej : ∀ r, env.reject r = none) :
    ∃ st1 st2 st3 st4,
      applyRequest env freshStore req1 = .ok st1 ∧
      applyRequest env st1 req2 = .ok st2 ∧
      applyRequest env st2 (req3 v1) = .ok st3 ∧
      applyRequest env st3 (req3 v2) = .ok st4 ∧
      st3.objectVersions "java-http" "agreements.zip" = [v1] ∧
      st4.objectVersions "java-http" "agreements.zip" = [v1, v2] := by
  refine ⟨⟨[("java-http", ⟨"ap-south-1", none, []⟩)]⟩,
    ⟨[("java-http", ⟨"ap-south-1", some "Enabled", []⟩)]⟩,
    ⟨[("java-http", ⟨"ap-south-1", some "Enabled", [("agreements.zip", [v1])]⟩)]⟩,
    ⟨[("java-http", ⟨"ap-south-1", some "Enabled",
        [("agreements.zip", [v1, v2])]⟩)]⟩,
    ?_, ?_, ?_, ?_, ?_, ?_⟩ <;>
  simp [applyRequest, hrej, req1, req2, req3, Store.hasBucket, freshStore,
    Store.addBucket, Store.setVersioning, Store.putObject,
    BucketState.putObject, Store.objectVersions, Store.getBucket, List.lookup]

/-- C8 witness: the theorem instantiated at the well-behaved world with
two concrete, different payloads. -/
theorem versioned_uploads_accumulate_witness :
    ∃ st1 st2 st3 st4,
      applyRequest envGood freshStore req1 = .ok st1 ∧
      applyRequest envGood st1 req2 = .ok st2 ∧
      applyRequest envGood st2 (req3 [80, 75, 5, 6]) = .ok st3 ∧
      applyRequest envGood st3 (req3 [1, 2, 3]) = .ok st4 ∧
      st3.objectVersions "java-http" "agreements.zip" = [[80, 75, 5, 6]] ∧
      st4.objectVersions "java-http" "agreements.zip" =
        [[80, 75, 5, 6], [1, 2, 3]] :=
  versioned_uploads_accumulate envGood [80, 75, 5, 6] [1, 2, 3] (fun _ => rfl)

/-- C9: all parameters of the script are literal constants — the
credentials, region, endpoint, bucket name, object key and source path
have exactly the hardcoded values — and the run reads nothing else from
its surroundings: two runs against identically-behaving external worlds
(same filesystem, same service behaviour) are identical. -/
theorem configuration_is_hardcoded :
    (session.aws_access_key_id = "test" ∧
     session.aws_secret_access_key = "test" ∧
     session.region_name = "ap-south-1" ∧
     s3_client.sess = session ∧
     s3_client.endpoint_url = "http://localhost:4566" ∧
     s3_client.region_name = "ap-south-1" ∧
     req1 = .create_bucket s3_client "java-http" "ap-south-1" ∧
     req2 = .put_bucket_versioning s3_client "java-http" "Enabled" ∧
     zip_file_path = "/build/tmp/agreements.zip" ∧
     (∀ bytes, req3 bytes =
       .upload_fileobj s3_client "java-http" "agreements.zip" bytes)) ∧
    ∀ env1 env2 : Env, ∀ st : Store,
      env1.fs = env2.fs → env1.reject = env2.reject →
      runScript env1 st = runScript env2 st := by
  refine ⟨⟨rfl, rfl, rfl, rfl, rfl, rfl, rfl, rfl, rfl, fun _ => rfl⟩, ?_⟩
  intro env1 env2 st hfs hrej
  obtain ⟨fs1, rej1⟩ := env1
  obtain ⟨fs2, rej2⟩ := env2
  have h1 : fs1 = fs2 := hfs
  have h2 : rej1 = rej2 := hrej
  subst h1
  subst h2
  rfl

/-- C9 witness: two identically-behaving worlds produce the same run. -/
theorem configuration_is_hardcoded_witness :
    runScript envGood freshStore = runScript envGoodCopy freshStore :=
  configuration_is_hardcoded.2 envGood envGoodCopy freshStore rfl rfl

/-- C10: every remote request any run ever issues goes through the one
client object (hence the same credentials, region and endpoint) and
targets the one bucket `java-http`. -/
theorem single_client_single_bucket (env : Env) (st : Store) (r : Request)
    (h : r ∈ (runScript env st).requests) :
    r.client = s3_client ∧ r.bucket = "java-http" := by
  rcases runScript_cases env st with ⟨e, h1, hrun⟩ |
    ⟨st1, h1, ⟨e, h2, hrun⟩ | ⟨st2, h2, ⟨hfs, hrun⟩ |
      ⟨bytes, hfs, ⟨e, h3, hrun⟩ | ⟨st3, h3, hrun⟩⟩⟩⟩
  · rw [hrun] at h
    simp at h
    subst h
    exact ⟨rfl, rfl⟩
  · rw [hrun] at h
    simp at h
    rcases h with rfl | rfl <;> exact ⟨rfl, rfl⟩
  · rw [hrun] at h
    simp at h
    rcases h with rfl | rfl <;> exact ⟨rfl, rfl⟩
  · rw [hrun] at h
    simp at h
    rcases h with rfl | rfl | rfl <;> exact ⟨rfl, rfl⟩
  · rw [hrun] at h
    simp at h
    rcases h with rfl | rfl | rfl <;> exact ⟨rfl, rfl⟩

/-- C10 witness: the theorem instantiated at the versioning request of a
successful run. -/
theorem single_client_single_bucket_witness :
    req2.client = s3_client ∧ req2.bucket = "java-http" :=
  single_client_single_bucket envGood freshStore req2 (by decide)
